import Mathlib

/-!
Verification of the QueBar status-bar core (src/src/main.rs).

The Rust program is shallowly embedded: JSON values are an inductive type,
the serde-derived decoders for `GlazeEnvelope`, `Workspace` and
`WorkspacesData` become explicit functions, the websocket client's inner
message loop and outer reconnection loop become list-processing functions
that record their observable effects (channel publishes, socket sends,
repaint-flag stores, sleeps), the repaint-coalescer ticker becomes a fold
over an interleaving trace of atomic flag operations, and the
`MyTaskbar::update` aggregator becomes a pure state-transition function.
Floating-point battery percentages are abstracted to their already-rounded
integer value (the `{:.0}%` formatting), which no verified property
inspects numerically.
-/

namespace QueBar

/-- JSON values, the model of `serde_json::Value`.  Objects keep an ordered
association list of fields; a value obtained from `serde_json` text parsing
has distinct keys (the default map keeps the last duplicate), so lookups
below take the first match. -/
inductive Json where
  | null : Json
  | bool (b : Bool) : Json
  | num (n : Int) : Json
  | str (s : String) : Json
  | arr (items : List Json) : Json
  | obj (fields : List (String × Json)) : Json

namespace Json

/-- `serde_json::Value::get(key)`: field lookup on objects, `none` on any
other value. -/
def get : Json → String → Option Json
  | obj fields, key => fields.lookup key
  | _, _ => none

/-- Number of fields of an object whose key lies in `keys` (serde reports a
`duplicate field` error when a field and its alias both occur). -/
def keyCount (j : Json) (keys : List String) : Nat :=
  match j with
  | obj fields => fields.countP (fun kv => keys.contains kv.fst)
  | _ => 0

/-- The value of the unique field whose key lies in `keys`, when exactly one
such field exists. -/
def uniqueField (j : Json) (keys : List String) : Option Json :=
  match j with
  | obj fields =>
      match fields.filter (fun kv => keys.contains kv.fst) with
      | [kv] => some kv.snd
      | _ => none
  | _ => none

end Json

/-- `struct Workspace { name, focused, visible }` from main.rs lines 18-27. -/
structure Workspace where
  name : String
  focused : Bool
  visible : Bool
deriving Repr, DecidableEq

/-- `struct WorkspacesData { workspaces: Vec<Workspace> }`, lines 29-32. -/
structure WorkspacesData where
  workspaces : List Workspace
deriving Repr, DecidableEq

/-- `struct GlazeEnvelope { message_type, data }`, lines 11-16. -/
structure GlazeEnvelope where
  message_type : String
  data : Json

/-- Decode a JSON bool, as serde does for a `bool` struct field. -/
def decodeBool : Json → Option Bool
  | Json.bool b => some b
  | _ => none

/-- Decode a JSON string, as serde does for a `String` struct field. -/
def decodeString : Json → Option String
  | Json.str s => some s
  | _ => none

/-- The serde-derived `Deserialize` for `Workspace`: `name` is required and
must be a string; `focused` accepts the alias `hasFocus` and defaults to
`false` when absent; `visible` accepts the alias `isDisplayed` and defaults
to `false`; a field present under both its name and its alias is a
duplicate-field error; unknown fields are ignored. -/
def decodeWorkspace (j : Json) : Option Workspace :=
  match j with
  | Json.obj _ =>
      match j.uniqueField ["name"] with
      | none => none
      | some nameVal =>
          match decodeString nameVal with
          | none => none
          | some name =>
              let focusedRes : Option Bool :=
                if j.keyCount ["focused", "hasFocus"] == 0 then some false
                else match j.uniqueField ["focused", "hasFocus"] with
                     | some v => decodeBool v
                     | none => none
              let visibleRes : Option Bool :=
                if j.keyCount ["visible", "isDisplayed"] == 0 then some false
                else match j.uniqueField ["visible", "isDisplayed"] with
                     | some v => decodeBool v
                     | none => none
              match focusedRes, visibleRes with
              | some f, some v => some ⟨name, f, v⟩
              | _, _ => none
  | _ => none

/-- Element-wise decoding of a JSON array as `Vec<Workspace>` (serde's
sequence visitor): every element must decode, in order. -/
def decodeWorkspaceList : List Json → Option (List Workspace)
  | [] => some []
  | j :: rest =>
      match decodeWorkspace j, decodeWorkspaceList rest with
      | some w, some ws => some (w :: ws)
      | _, _ => none

/-- The serde-derived `Deserialize` for `WorkspacesData`: a required
`workspaces` field holding an array, each element decoded as a
`Workspace`; unknown fields are ignored. -/
def decodeWorkspacesData (j : Json) : Option WorkspacesData :=
  match j with
  | Json.obj _ =>
      match j.uniqueField ["workspaces"] with
      | none => none
      | some (Json.arr items) =>
          match decodeWorkspaceList items with
          | some ws => some ⟨ws⟩
          | none => none
      | some _ => none
  | _ => none

/-- The serde-derived `Deserialize` for `GlazeEnvelope`: required
`messageType` string field (the `rename` attribute) and required `data`
field of arbitrary JSON. -/
def decodeEnvelope (j : Json) : Option GlazeEnvelope :=
  match j with
  | Json.obj _ =>
      match j.uniqueField ["messageType"] with
      | none => none
      | some mtVal =>
          match decodeString mtVal with
          | none => none
          | some mt =>
              match j.uniqueField ["data"] with
              | none => none
              | some d => some ⟨mt, d⟩
  | _ => none

/-! ### Workspace Event Client (main.rs lines 57-95)

The inner `Streaming` loop reads one message at a time and reacts; its
observable effects are channel publishes (`ws_tx.send`), repaint-flag
stores, and socket sends.  The outer loop reconnects forever. -/

/-- Guard of the first Rust match arm, `"client_response" | "query_response"`. -/
def isResponseType (mt : String) : Bool :=
  mt == "client_response" || mt == "query_response"

/-- Guard of the second arm, `"event" | "subscribed_event" | "event_subscription"`. -/
def isEventType (mt : String) : Bool :=
  mt == "event" || mt == "subscribed_event" || mt == "event_subscription"

/-- Observable effects of handling one inbound message in the streaming
loop: snapshots published on the workspace channel, whether
`repaint_signal.store(true)` ran, and commands sent on the socket. -/
structure StepOut where
  published : List (List Workspace)
  flagSet : Bool
  sends : List String
deriving Repr, DecidableEq

/-- No observable effect (the message was dropped). -/
def StepOut.empty : StepOut := ⟨[], false, []⟩

/-- Sequencing of effects of consecutive loop iterations. -/
def StepOut.append (a b : StepOut) : StepOut :=
  ⟨a.published ++ b.published, a.flagSet || b.flagSet, a.sends ++ b.sends⟩

/-- The match on `envelope.message_type` (lines 71-84).  The Rust match
arms carry disjoint string literals, so disjunction-guarded if-chains are
an exact rendering. -/
def processEnvelope (env : GlazeEnvelope) : StepOut :=
  if isResponseType env.message_type then
    if (env.data.get "subscriptionId").isSome then StepOut.empty
    else
      match decodeWorkspacesData env.data with
      | some d => ⟨[d.workspaces], true, []⟩
      | none => StepOut.empty
  else if isEventType env.message_type then
    ⟨[], false, ["query workspaces"]⟩
  else StepOut.empty

/-- One inbound websocket message as the streaming loop sees it: a text
frame carries the JSON parse of its contents (`none` when the text is not
valid JSON), any other frame kind is opaque. -/
inductive InMsg where
  | text (parsed : Option Json) : InMsg
  | nonText : InMsg

/-- Handling of one successfully read message (lines 69-86): only text
frames whose contents decode as a `GlazeEnvelope` are acted on. -/
def processMsg (m : InMsg) : StepOut :=
  match m with
  | InMsg.text (some j) =>
      match decodeEnvelope j with
      | some env => processEnvelope env
      | none => StepOut.empty
  | InMsg.text none => StepOut.empty
  | InMsg.nonText => StepOut.empty

/-- `true` exactly when the message is a decodable envelope with an
event-class `messageType`. -/
def isEventMsg (m : InMsg) : Bool :=
  match m with
  | InMsg.text (some j) =>
      match decodeEnvelope j with
      | some env => isEventType env.message_type
      | none => false
  | _ => false

/-- One `socket.read()` outcome delivered to the streaming loop. -/
inductive ReadResult where
  | ok (m : InMsg) : ReadResult
  | err : ReadResult

/-- The inner streaming loop (lines 66-90) over the sequence of read
outcomes of one connection: processes messages in order and breaks out on
the first read error. -/
def streamRun : List ReadResult → StepOut
  | [] => StepOut.empty
  | ReadResult.err :: _ => StepOut.empty
  | ReadResult.ok m :: rest => (processMsg m).append (streamRun rest)

/-- One iteration of the outer reconnection loop: `connect` either fails
or yields a connection whose reads are the given list. -/
inductive ConnAttempt where
  | fail : ConnAttempt
  | ok (reads : List ReadResult) : ConnAttempt

/-- Observable effects of one outer-loop iteration: seconds slept on a
failed connect, commands sent, and snapshots published. -/
structure SessionOut where
  sleepSecs : Option Nat
  sends : List String
  published : List (List Workspace)
deriving Repr, DecidableEq

/-- One outer-loop iteration (lines 59-94): connect failure sleeps 2
seconds; success sends the two subscribe commands, then the initial
query, then runs the streaming loop. -/
def connStep : ConnAttempt → SessionOut
  | ConnAttempt.fail => ⟨some 2, [], []⟩
  | ConnAttempt.ok reads =>
      ⟨none,
       "sub -e workspace_activated" :: "sub -e focus_changed" ::
         "query workspaces" :: (streamRun reads).sends,
       (streamRun reads).published⟩

/-- The outer loop runs forever; over any finite prefix of connection
attempts it performs one `connStep` per attempt, in order. -/
def clientRun (attempts : List ConnAttempt) : List SessionOut :=
  attempts.map connStep

/-! ### Repaint Coalescer (main.rs lines 54, 77, 97-104)

The flag is an `AtomicBool`; producers run `store(true)` and the ticker
runs `swap(false)`, issuing one repaint when the swap returned `true`.
Concurrency is modelled by an arbitrary interleaving trace of these
atomic operations. -/

/-- One atomic operation on the shared repaint flag. -/
inductive FlagOp where
  | set : FlagOp
  | tick : FlagOp
deriving Repr, DecidableEq

/-- Coalescer state: current flag value and redraw requests issued so far. -/
structure CoalescerState where
  flag : Bool
  repaints : Nat
deriving Repr, DecidableEq

/-- Effect of one atomic operation: a producer `store(true)`, or one
ticker cycle `if swap(false) { request_repaint() }`. -/
def flagStep (s : CoalescerState) : FlagOp → CoalescerState
  | FlagOp.set => ⟨true, s.repaints⟩
  | FlagOp.tick => ⟨false, if s.flag then s.repaints + 1 else s.repaints⟩

/-- Run an interleaving trace from the initial state
(`AtomicBool::new(false)`, no repaints yet). -/
def coalescerRun (ops : List FlagOp) : CoalescerState :=
  ops.foldl flagStep ⟨false, 0⟩

/-! ### Battery Sampler (main.rs lines 106-120)

One loop iteration.  `manager` is whether `battery::Manager::new()`
succeeded at thread start; `sample` is `some pct` when `mgr.batteries()`
succeeded and its first element was an `Ok` battery whose charge,
formatted with `{:.0}`, rounds to `pct` percent (floating-point
formatting abstracted to its rounded integer result). -/

/-- Observable effects of one battery-sampler iteration: the string
published on the battery channel, the repaint flag after the iteration,
and whether `ctx_bat.request_repaint()` was called directly. -/
structure BatteryStepOut where
  published : Option String
  flag : Bool
  directRepaint : Bool
deriving Repr, DecidableEq

/-- `format!("\x7b:.0\x7d%", pct)` at the rounded-integer abstraction. -/
def formatPercent (pct : Nat) : String := toString pct ++ "%"

/-- One iteration of the battery loop body.  Note line 114: the sampler
wakes the UI via `request_repaint` directly and never writes the shared
repaint flag, so the flag passes through unchanged. -/
def batteryStep (manager : Bool) (sample : Option Nat) (flag : Bool) : BatteryStepOut :=
  if manager then
    match sample with
    | some pct => ⟨some (formatPercent pct), flag, true⟩
    | none => ⟨none, flag, false⟩
  else ⟨none, flag, false⟩

/-! ### Display State Aggregator (main.rs lines 127-221)

`MyTaskbar::update` becomes a pure transition: the channel receivers
become the (FIFO-ordered) lists of values pending on each channel, and
`chrono::Local::now()` becomes the formatted time/date strings plus the
unix timestamp.  Rendering calls are omitted; the outputs kept are the
new state, `repaint_needed`, and the `request_repaint_after` delay. -/

/-- The aggregator's state (the `MyTaskbar` struct fields that persist
across frames; the receivers are supplied per call). -/
structure MyTaskbar where
  date : String
  time : String
  battery_level : String
  workspaces : List Workspace
deriving Repr, DecidableEq

/-- `MyTaskbar::new` (lines 137-146). -/
def MyTaskbar.new : MyTaskbar :=
  { date := ""
    time := ""
    battery_level := "100%"
    workspaces := [] }

/-- `now.timestamp() as u64`: the two's-complement `i64` reinterpreted as
`u64`. -/
def u64cast (t : Int) : Nat := (t % (2 ^ 64)).toNat

/-- Results of one `update` call. -/
structure UpdateOut where
  state : MyTaskbar
  repaintNeeded : Bool
  repaintAfterSecs : Nat
deriving Repr, DecidableEq

/-- `MyTaskbar::update` (lines 150-221).  The two `while let
Ok(v) = rx.try_recv()` drains are folds that overwrite with each received
value; the clock compare-and-set follows lines 163-171; the delay is
line 218. -/
def MyTaskbar.update (st : MyTaskbar) (wsPending : List (List Workspace))
    (batPending : List String) (timeStr dateStr : String) (timestamp : Int) :
    UpdateOut :=
  let wsDrain := wsPending.foldl (fun _ v => (v, true)) (st.workspaces, false)
  let batDrain := batPending.foldl (fun _ v => (v, true)) (st.battery_level, false)
  let clockChanged := timeStr != st.time || dateStr != st.date
  let newTime := if clockChanged then timeStr else st.time
  let newDate := if clockChanged then dateStr else st.date
  { state :=
      { date := newDate
        time := newTime
        battery_level := batDrain.fst
        workspaces := wsDrain.fst }
    repaintNeeded := wsDrain.snd || batDrain.snd || clockChanged
    repaintAfterSecs := 60 - (u64cast timestamp % 60) }

/-- The first workspace message of the spec's end-to-end scenario:
`\x7b"workspaces":[\x7b"name":"1","hasFocus":true\x7d]\x7d`. -/
def wsMsg1 : Json :=
  Json.obj [("workspaces", Json.arr
    [Json.obj [("name", Json.str "1"), ("hasFocus", Json.bool true)]])]

/-- The second workspace message of the scenario:
`\x7b"workspaces":[\x7b"name":"1","hasFocus":false\x7d,
\x7b"name":"2","hasFocus":true,"isDisplayed":true\x7d]\x7d`. -/
def wsMsg2 : Json :=
  Json.obj [("workspaces", Json.arr
    [Json.obj [("name", Json.str "1"), ("hasFocus", Json.bool false)],
     Json.obj [("name", Json.str "2"), ("hasFocus", Json.bool true),
               ("isDisplayed", Json.bool true)]])]

end QueBar

namespace QueBar

theorem resp_not_event (mt : String) (h : isResponseType mt = true) :
    isEventType mt = false := by
  have h2 : mt = "client_response" ∨ mt = "query_response" := by
    simpa [isResponseType] using h
  rcases h2 with h1 | h1 <;> subst h1 <;> rfl

theorem drain_foldl {α : Type} : ∀ (l : List α) (a : α) (b : Bool),
    l.foldl (fun _ v => (v, true)) (a, b) = (l.getLastD a, b || !l.isEmpty)
  | [], a, b => by simp
  | x :: xs, a, b => by
    rw [List.foldl_cons, drain_foldl xs x true, List.getLastD_cons]
    simp

theorem processEnvelope_sends (env : GlazeEnvelope) :
    (processEnvelope env).sends
      = if isEventType env.message_type then ["query workspaces"] else [] := by
  by_cases h1 : isResponseType env.message_type = true
  · have he := resp_not_event env.message_type h1
    by_cases h2 : (env.data.get "subscriptionId").isSome = true
    · simp [processEnvelope, h1, h2, he, StepOut.empty]
    · cases hd : decodeWorkspacesData env.data <;>
        simp [processEnvelope, h1, h2, he, hd, StepOut.empty]
  · by_cases h3 : isEventType env.message_type = true <;>
      simp [processEnvelope, h1, h3, StepOut.empty]

theorem processMsg_sends (m : InMsg) :
    (processMsg m).sends
      = if isEventMsg m = true then ["query workspaces"] else [] := by
  cases m with
  | nonText => rfl
  | text p =>
    cases p with
    | none => rfl
    | some j =>
      cases h : decodeEnvelope j with
      | none => simp [processMsg, isEventMsg, h, StepOut.empty]
      | some env =>
        simp only [processMsg, isEventMsg, h]
        exact processEnvelope_sends env

theorem streamRun_sends (ms : List InMsg) :
    (streamRun (ms.map ReadResult.ok)).sends
      = (ms.filter fun m => isEventMsg m).map fun _ => "query workspaces" := by
  induction ms with
  | nil => rfl
  | cons m rest ih =>
    simp only [List.map_cons, streamRun, StepOut.append, List.filter_cons]
    by_cases h : isEventMsg m = true
    · simp [h, processMsg_sends, ih]
    · simp [h, processMsg_sends, ih]

end QueBar

namespace QueBar

theorem coal_bound : ∀ (ops : List FlagOp) (s : CoalescerState),
    (ops.foldl flagStep s).repaints + (if (ops.foldl flagStep s).flag then 1 else 0)
      ≤ s.repaints + (if s.flag then 1 else 0) + ops.count FlagOp.set
  | [], s => by simp
  | FlagOp.set :: rest, ⟨sf, sr⟩ => by
    have h := coal_bound rest ⟨true, sr⟩
    have hss : (FlagOp.set == FlagOp.set) = true := rfl
    simp only [List.foldl_cons, flagStep, List.count_cons, hss] at h ⊢
    cases sf <;> simp at h ⊢ <;> omega
  | FlagOp.tick :: rest, ⟨sf, sr⟩ => by
    have h := coal_bound rest ⟨false, if sf then sr + 1 else sr⟩
    have hts : (FlagOp.tick == FlagOp.set) = false := rfl
    simp only [List.foldl_cons, flagStep, List.count_cons, hts] at h ⊢
    cases sf <;> simp at h ⊢ <;> omega

theorem coal_live : ∀ (ops : List FlagOp) (s : CoalescerState),
    (s.flag = true ∨ 1 ≤ s.repaints ∨ 0 < ops.count FlagOp.set) →
    ((ops.foldl flagStep s).flag = true ∨ 1 ≤ (ops.foldl flagStep s).repaints)
  | [], s, h => by
    simp only [List.foldl_nil]
    rcases h with h | h | h
    · exact Or.inl h
    · exact Or.inr h
    · simp at h
  | FlagOp.set :: rest, s, _ => by
    simp only [List.foldl_cons, flagStep]
    exact coal_live rest ⟨true, s.repaints⟩ (Or.inl rfl)
  | FlagOp.tick :: rest, ⟨sf, sr⟩, h => by
    simp only [List.foldl_cons, flagStep]
    apply coal_live rest ⟨false, if sf then sr + 1 else sr⟩
    have hts : (FlagOp.tick == FlagOp.set) = false := rfl
    rcases h with h | h | h
    · right; left; simp only [CoalescerState.flag] at h; simp [h]
    · right; left; simp only [CoalescerState.repaints] at h
      cases sf
      · simpa using h
      · simp
    · right; right; simpa [List.count_cons, hts] using h

theorem decodeWorkspaceList_spec : ∀ (items : List Json) (ws : List Workspace),
    decodeWorkspaceList items = some ws →
    items.length = ws.length ∧
      ∀ (i : Nat) (hi : i < items.length) (hw : i < ws.length),
        decodeWorkspace (items.get ⟨i, hi⟩) = some (ws.get ⟨i, hw⟩)
  | [], ws, h => by
    simp only [decodeWorkspaceList, Option.some.injEq] at h
    subst h
    exact ⟨rfl, fun i hi hw => absurd hi (by simp)⟩
  | j :: rest, ws, h => by
    simp only [decodeWorkspaceList] at h
    cases hj : decodeWorkspace j with
    | none => rw [hj] at h; simp at h
    | some w =>
      cases hr : decodeWorkspaceList rest with
      | none => rw [hj, hr] at h; simp at h
      | some tail =>
        rw [hj, hr] at h
        simp only [Option.some.injEq] at h
        subst h
        obtain ⟨len, point⟩ := decodeWorkspaceList_spec rest tail hr
        refine ⟨by simp [len], ?_⟩
        intro i hi hw
        cases i with
        | zero => simpa using hj
        | succ k =>
          simpa using point k (by simpa using hi) (by simpa using hw)

end QueBar

namespace QueBar

/-- C1: response envelopes without a subscription-ack marker whose payload
decodes publish exactly the decoded list, in order, with aliases accepted
and absent focus/visibility fields defaulting to false. -/
theorem c1_workspace_decode_roundtrip :
    (∀ (env : GlazeEnvelope) (d : WorkspacesData),
        (env.message_type = "client_response" ∨ env.message_type = "query_response") →
        env.data.get "subscriptionId" = none →
        decodeWorkspacesData env.data = some d →
        processEnvelope env = ⟨[d.workspaces], true, []⟩)
  ∧ (∀ (items : List Json) (ws : List Workspace),
        decodeWorkspaceList items = some ws →
        items.length = ws.length ∧
          ∀ (i : Nat) (hi : i < items.length) (hw : i < ws.length),
            decodeWorkspace (items.get ⟨i, hi⟩) = some (ws.get ⟨i, hw⟩))
  ∧ (∀ (n : String) (b : Bool),
        decodeWorkspace (Json.obj [("name", Json.str n), ("hasFocus", Json.bool b)])
          = some ⟨n, b, false⟩ ∧
        decodeWorkspace (Json.obj [("name", Json.str n), ("focused", Json.bool b)])
          = some ⟨n, b, false⟩ ∧
        decodeWorkspace (Json.obj [("name", Json.str n), ("isDisplayed", Json.bool b)])
          = some ⟨n, false, b⟩ ∧
        decodeWorkspace (Json.obj [("name", Json.str n), ("visible", Json.bool b)])
          = some ⟨n, false, b⟩)
  ∧ (∀ n : String,
        decodeWorkspace (Json.obj [("name", Json.str n)]) = some ⟨n, false, false⟩) := by
  refine ⟨?_, decodeWorkspaceList_spec, ?_, ?_⟩
  · intro env d hmt hsub hdec
    have hr : isResponseType env.message_type = true := by
      rcases hmt with h | h <;> simp [isResponseType, h]
    simp [processEnvelope, hr, hsub, hdec]
  · exact fun n b => ⟨rfl, rfl, rfl, rfl⟩
  · exact fun n => rfl

theorem c1_witness :
    processEnvelope ⟨"query_response", wsMsg1⟩
      = ⟨[[⟨"1", true, false⟩]], true, []⟩ :=
  c1_workspace_decode_roundtrip.1 ⟨"query_response", wsMsg1⟩
    ⟨[⟨"1", true, false⟩]⟩ (Or.inr rfl) rfl rfl

end QueBar

namespace QueBar

/-- C2: while streaming, each event-class message triggers exactly one
"query workspaces" send, immediately and with none skipped. -/
theorem c2_events_trigger_queries :
    (∀ ms : List InMsg,
        (streamRun (ms.map ReadResult.ok)).sends
          = (ms.filter fun m => isEventMsg m).map fun _ => "query workspaces")
  ∧ (∀ ms : List InMsg,
        (streamRun (ms.map ReadResult.ok)).sends.length
          = ms.countP fun m => isEventMsg m)
  ∧ (∀ m : InMsg, isEventMsg m = true → (processMsg m).sends = ["query workspaces"])
  ∧ (∀ m : InMsg, isEventMsg m = false → (processMsg m).sends = []) := by
  refine ⟨streamRun_sends, ?_, ?_, ?_⟩
  · intro ms
    rw [streamRun_sends]
    simp [← List.countP_eq_length_filter]
  · intro m h
    rw [processMsg_sends, if_pos h]
  · intro m h
    rw [processMsg_sends, if_neg (by simp [h])]

theorem c2_witness :
    (processMsg (InMsg.text (some (Json.obj
        [("messageType", Json.str "event"), ("data", Json.null)])))).sends
      = ["query workspaces"] :=
  c2_events_trigger_queries.2.2.1 _ rfl

/-- C3: a response envelope carrying a subscriptionId marker publishes no
snapshot and does not raise the repaint flag. -/
theorem c3_subscription_ack_dropped :
    ∀ env : GlazeEnvelope,
      (env.message_type = "client_response" ∨ env.message_type = "query_response") →
      (env.data.get "subscriptionId").isSome = true →
      (processEnvelope env).published = [] ∧ (processEnvelope env).flagSet = false := by
  intro env hmt hsub
  have hr : isResponseType env.message_type = true := by
    rcases hmt with h | h <;> simp [isResponseType, h]
  simp [processEnvelope, hr, hsub, StepOut.empty]

theorem c3_witness :
    (processEnvelope ⟨"client_response",
        Json.obj [("subscriptionId", Json.num 5)]⟩).published = [] ∧
    (processEnvelope ⟨"client_response",
        Json.obj [("subscriptionId", Json.num 5)]⟩).flagSet = false :=
  c3_subscription_ack_dropped _ (Or.inl rfl) rfl

/-- C4: after a connection loss the outer loop continues (re-enters
Disconnected), a failed connect sleeps the fixed 2 seconds, a read error
ends the streaming session, and every successful connection sends the two
subscribe commands and then the query before anything else. -/
theorem c4_reconnect_protocol :
    (∀ (a : ConnAttempt) (rest : List ConnAttempt),
        clientRun (a :: rest) = connStep a :: clientRun rest)
  ∧ connStep ConnAttempt.fail = ⟨some 2, [], []⟩
  ∧ (∀ rest : List ReadResult, streamRun (ReadResult.err :: rest) = StepOut.empty)
  ∧ (∀ reads : List ReadResult, ∃ rest : List String,
        (connStep (ConnAttempt.ok reads)).sends
          = "sub -e workspace_activated" :: "sub -e focus_changed" ::
              "query workspaces" :: rest) :=
  ⟨fun _ _ => rfl, rfl, fun _ => rfl, fun reads => ⟨(streamRun reads).sends, rfl⟩⟩

/-- C5: a ticker cycle clears the flag in the same atomic step as it
observes it and issues exactly one redraw per true observation; over any
interleaving a single set yields at most one redraw, and a set is never
lost. -/
theorem c5_coalescer_test_and_clear :
    (∀ s : CoalescerState,
        (flagStep s FlagOp.tick).flag = false ∧
        (flagStep s FlagOp.tick).repaints
          = s.repaints + (if s.flag then 1 else 0))
  ∧ (∀ ops : List FlagOp,
        (coalescerRun ops).repaints + (if (coalescerRun ops).flag then 1 else 0)
          ≤ ops.count FlagOp.set)
  ∧ (∀ ops : List FlagOp, 0 < ops.count FlagOp.set →
        (coalescerRun ops).flag = true ∨ 1 ≤ (coalescerRun ops).repaints) := by
  refine ⟨?_, ?_, ?_⟩
  · intro s
    refine ⟨rfl, ?_⟩
    cases hf : s.flag <;> simp [flagStep, hf]
  · intro ops
    simpa using coal_bound ops ⟨false, 0⟩
  · intro ops h
    exact coal_live ops ⟨false, 0⟩ (Or.inr (Or.inr h))

theorem c5_witness :
    (coalescerRun [FlagOp.set, FlagOp.tick]).flag = true ∨
      1 ≤ (coalescerRun [FlagOp.set, FlagOp.tick]).repaints :=
  c5_coalescer_test_and_clear.2.2 [FlagOp.set, FlagOp.tick] (by decide)

end QueBar

namespace QueBar

theorem c6_counterexample :
    (batteryStep true (some 87) false).published = some "87%" ∧
    (batteryStep true (some 87) false).flag = false :=
  ⟨rfl, rfl⟩

/-- C6 (amended): a workspace snapshot publish raises the shared repaint
flag, while the battery sampler leaves the flag untouched and instead
requests a repaint directly whenever it publishes. -/
theorem c6_amended_producer_wakeups :
    (∀ (env : GlazeEnvelope) (d : WorkspacesData),
        (env.message_type = "client_response" ∨ env.message_type = "query_response") →
        (env.data.get "subscriptionId").isSome = false →
        decodeWorkspacesData env.data = some d →
        (processEnvelope env).flagSet = true ∧
        (processEnvelope env).published = [d.workspaces])
  ∧ (∀ (m : Bool) (s : Option Nat) (f : Bool), (batteryStep m s f).flag = f)
  ∧ (∀ (m : Bool) (s : Option Nat) (f : Bool),
        (batteryStep m s f).published.isSome = true →
        (batteryStep m s f).directRepaint = true) := by
  refine ⟨?_, ?_, ?_⟩
  · intro env d hmt hsub hdec
    have hr : isResponseType env.message_type = true := by
      rcases hmt with h | h <;> simp [isResponseType, h]
    simp [processEnvelope, hr, hsub, hdec]
  · intro m s f
    cases m <;> cases s <;> rfl
  · intro m s f h
    cases m <;> cases s <;> simp [batteryStep] at h ⊢

theorem c6_witness :
    ((processEnvelope ⟨"query_response", wsMsg2⟩).flagSet = true ∧
      (processEnvelope ⟨"query_response", wsMsg2⟩).published
        = [[⟨"1", false, false⟩, ⟨"2", true, true⟩]]) ∧
    (batteryStep true (some 50) false).directRepaint = true :=
  ⟨c6_amended_producer_wakeups.1 ⟨"query_response", wsMsg2⟩
      ⟨[⟨"1", false, false⟩, ⟨"2", true, true⟩]⟩ (Or.inr rfl) rfl rfl,
    c6_amended_producer_wakeups.2.2 true (some 50) false rfl⟩

/-- C7: each update drains both channels keeping only the last pending
value, and on the spec's two-message scenario the final workspace list is
the second list verbatim. -/
theorem c7_last_value_wins :
    (∀ (st : MyTaskbar) (wsP : List (List Workspace)) (batP : List String)
        (t d : String) (ts : Int),
        (st.update wsP batP t d ts).state.workspaces = wsP.getLastD st.workspaces ∧
        (st.update wsP batP t d ts).state.battery_level
          = batP.getLastD st.battery_level)
  ∧ (∀ (t d : String) (ts : Int),
        decodeWorkspacesData wsMsg1 = some ⟨[⟨"1", true, false⟩]⟩ ∧
        decodeWorkspacesData wsMsg2
          = some ⟨[⟨"1", false, false⟩, ⟨"2", true, true⟩]⟩ ∧
        (MyTaskbar.new.update
            ([wsMsg1, wsMsg2].filterMap fun m =>
              (decodeWorkspacesData m).map WorkspacesData.workspaces)
            [] t d ts).state.workspaces
          = [⟨"1", false, false⟩, ⟨"2", true, true⟩]) := by
  refine ⟨?_, fun t d ts => ⟨rfl, rfl, rfl⟩⟩
  intro st wsP batP t d ts
  constructor <;> simp [MyTaskbar.update, drain_foldl]

theorem c8_counterexample :
    (MyTaskbar.new.update [] [] "" "" 125).repaintAfterSecs = 55 ∧
    (MyTaskbar.new.update [] [] "" "" 125).repaintAfterSecs ≠ 35 :=
  ⟨rfl, by decide⟩

/-- C8 (amended): the computed delay is 60 - (unix_time as u64 mod 60);
at unix time 125 it is 55 (not 35), and at 180 it is 60. -/
theorem c8_amended_minute_delay :
    (∀ (st : MyTaskbar) (wsP : List (List Workspace)) (batP : List String)
        (t d : String) (ts : Int),
        (st.update wsP batP t d ts).repaintAfterSecs = 60 - (u64cast ts % 60))
  ∧ (∀ (st : MyTaskbar) (t d : String),
        (st.update [] [] t d 125).repaintAfterSecs = 55 ∧
        (st.update [] [] t d 180).repaintAfterSecs = 60) :=
  ⟨fun _ _ _ _ _ _ => rfl, fun _ _ _ => ⟨rfl, rfl⟩⟩

/-- C9: invalid envelopes, undecodable response payloads and unknown
message types are dropped with no publish, no repaint flag and no send,
and the streaming loop continues past any successfully read message. -/
theorem c9_invalid_messages_dropped :
    processMsg (InMsg.text none) = StepOut.empty
  ∧ (∀ j : Json, decodeEnvelope j = none →
        processMsg (InMsg.text (some j)) = StepOut.empty)
  ∧ (∀ env : GlazeEnvelope,
        (env.message_type = "client_response" ∨ env.message_type = "query_response") →
        (env.data.get "subscriptionId").isSome = false →
        decodeWorkspacesData env.data = none →
        processEnvelope env = StepOut.empty)
  ∧ (∀ env : GlazeEnvelope,
        isResponseType env.message_type = false →
        isEventType env.message_type = false →
        processEnvelope env = StepOut.empty)
  ∧ (∀ (m : InMsg) (rest : List ReadResult),
        streamRun (ReadResult.ok m :: rest)
          = (processMsg m).append (streamRun rest)) := by
  refine ⟨rfl, ?_, ?_, ?_, fun _ _ => rfl⟩
  · intro j h
    simp [processMsg, h]
  · intro env hmt hsub hdec
    have hr : isResponseType env.message_type = true := by
      rcases hmt with h | h <;> simp [isResponseType, h]
    simp [processEnvelope, hr, hsub, hdec]
  · intro env hr he
    simp [processEnvelope, hr, he]

theorem c9_witness :
    processMsg (InMsg.text (some Json.null)) = StepOut.empty :=
  c9_invalid_messages_dropped.2.1 Json.null rfl

/-- C10: the initial display state has battery "100%", no workspaces and
empty clock strings, and the battery placeholder survives updates that
drain nothing. -/
theorem c10_initial_state :
    MyTaskbar.new.battery_level = "100%" ∧
    MyTaskbar.new.workspaces = [] ∧
    MyTaskbar.new.time = "" ∧
    MyTaskbar.new.date = "" ∧
    (∀ (t d : String) (ts : Int),
        (MyTaskbar.new.update [] [] t d ts).state.battery_level = "100%") :=
  ⟨rfl, rfl, rfl, rfl, fun _ _ _ => rfl⟩

end QueBar
